import Mathlib

/-!
Verification of the request-dispatch core of the PSSPV bank server
(`src/bank.js`).

The server is a line-based TCP service: each inbound line is trimmed,
tokenised, and dispatched by `handleCommand` through a `switch` on the
upper-cased command token.  Local operations read and mutate the MySQL
`accounts` table (modelled here as an association list of id/balance rows);
operations addressed to another bank are relayed by `forwardCommandToBank`.

The embedding below translates each source function into a pure Lean
function.  JavaScript strings are Lean `String`s; the handful of JS string
primitives the source uses (`trim`, `split`, `toUpperCase`, `parseInt`) are
modelled explicitly over character lists so every definition is executable
and kernel-reducible.  Socket writes and forwarded calls are reified in the
`Action` type; `Math.random()` is passed in as an explicit rational `r`.
-/

namespace Bank

/-- JS `String.prototype.split(sep)` over a character list: cut at every
separator character, keeping empty pieces (so `"a//b".split("/")` gives
`["a", "", "b"]` and `"".split("/")` gives `[""]`). -/
def splitOnP (p : Char → Bool) : List Char → List (List Char)
  | [] => [[]]
  | c :: rest =>
    if p c then [] :: splitOnP p rest
    else
      match splitOnP p rest with
      | [] => [[c]]
      | piece :: pieces => (c :: piece) :: pieces

def mkStr (l : List Char) : String := String.mk l

/-- JS `accountInfo.split("/")` destructured as `const [account, bankCode]`:
the second component is `none` when the reference holds no `/` separator
(JS `undefined`). -/
def splitRef (s : String) : String × Option String :=
  match (splitOnP (fun c => c == '/') s.toList).map mkStr with
  | [] => ("", none)
  | [a] => (a, none)
  | a :: b :: _ => (a, some b)

/-- JS `String.prototype.trim`: drop leading and trailing whitespace. -/
def jsTrim (s : String) : String :=
  mkStr (((s.toList.dropWhile Char.isWhitespace).reverse.dropWhile
    Char.isWhitespace).reverse)

/-- The tokenisation `command.trim().split(/\s+/)` performed at the top of
`handleCommand`: the non-empty maximal runs of non-whitespace characters of
the trimmed line.  (On a whitespace-only line JS yields `[""]`, whose head
`""` falls through to the dispatcher's default branch; here that case is the
empty token list, routed to the same branch by `handleCommand`.) -/
def tokens (s : String) : List String :=
  ((splitOnP Char.isWhitespace (jsTrim s).toList).filter
    (fun l => !l.isEmpty)).map mkStr

/-- ASCII case mapping of JS `String.prototype.toUpperCase` (the command
vocabulary is ASCII). -/
def jsCharUpper (c : Char) : Char :=
  if 'a' ≤ c ∧ c ≤ 'z' then Char.ofNat (c.toNat - 32) else c

def jsToUpper (s : String) : String := mkStr (s.toList.map jsCharUpper)

/-- Value of a run of decimal digit characters. -/
def digitsVal (l : List Char) : Nat :=
  l.foldl (fun a c => a * 10 + (c.toNat - 48)) 0

/-- Longest leading run of decimal digits, `none` when there is none. -/
def leadingNat (l : List Char) : Option Nat :=
  match l.takeWhile Char.isDigit with
  | [] => none
  | ds => some (digitsVal ds)

/-- JS `parseInt(s, 10)`: an optional sign followed by the longest leading
run of decimal digits; everything after that run is ignored (so `"3.5"`
parses to `3`), and `none` models `NaN`.  Leading whitespace never occurs
here because arguments come from a whitespace split.  JS number precision is
idealised to exact integers. -/
def parseIntJS (s : String) : Option Int :=
  match s.toList with
  | '-' :: rest => (leadingNat rest).map (fun n => -(n : Int))
  | '+' :: rest => (leadingNat rest).map (fun n => (n : Int))
  | l => (leadingNat l).map (fun n => (n : Int))

/-- JS `String(n)` / `Nat.toNat?`-style reading of a whole decimal numeral
(used to model binding an account string into `WHERE id = ?` against the
integer id column: the decimal numerals this server generates coerce to
their value). -/
def strToNat (s : String) : Option Nat :=
  match s.toList with
  | [] => none
  | l => if l.all Char.isDigit then some (digitsVal l) else none

/-- The rows of the MySQL `accounts` table: `(id, balance)` pairs. -/
structure BankState where
  accounts : List (Nat × Int)
deriving DecidableEq

/-- What a handler does to the caller's socket. -/
inductive Action where
  /-- nothing written (blank input line) -/
  | silent
  /-- `socket.write(line)` of a local reply -/
  | write (line : String)
  /-- `forwardCommandToBank(bankIP, command, socket)` was invoked -/
  | forward (bankIP : Option String) (command : String)
deriving DecidableEq

/-- First `balance` of a row whose id matches
(`SELECT balance FROM accounts WHERE id = ?`). -/
def findBalance : List (Nat × Int) → Nat → Option Int
  | [], _ => none
  | (i, b) :: rest, n => if i = n then some b else findBalance rest n

/-- `SELECT balance FROM accounts WHERE id = ?` with the account string bound
as the parameter. -/
def dbLookup (accounts : List (Nat × Int)) (account : String) : Option Int :=
  match strToNat account with
  | none => none
  | some n => findBalance accounts n

/-- `UPDATE accounts SET balance = ? WHERE id = ?`. -/
def updateBalance (accounts : List (Nat × Int)) (account : String) (v : Int) :
    List (Nat × Int) :=
  match strToNat account with
  | none => accounts
  | some n => accounts.map (fun p => if p.1 = n then (n, v) else p)

/-- `DELETE FROM accounts WHERE id = ?`. -/
def deleteAccount (accounts : List (Nat × Int)) (account : String) :
    List (Nat × Int) :=
  match strToNat account with
  | none => accounts
  | some n => accounts.filter (fun p => p.1 != n)

/-- `SELECT SUM(balance) AS totalAmount FROM accounts`. -/
def totalAmount (st : BankState) : Int := (st.accounts.map (fun p => p.2)).sum

/-- The value the promise returned by `isUniqueAccountId(accountId)` resolves
to: `results.length === 0`, i.e. no existing row carries this id. -/
def isUniqueAccountId (st : BankState) (accountId : Nat) : Bool :=
  (findBalance st.accounts accountId).isNone

/-- `generateUniqueAccountId` from `bank.js`:
`accountId = Math.floor(10000 + Math.random() * 90000)`, with the value of
`Math.random()` passed in as `r`.  The source wraps this in
`do { ... } while (!isUniqueAccountId(accountId))`, but `isUniqueAccountId`
returns a `Promise` object (it is never awaited) and every object is truthy
in JavaScript, so the guard is always `false`: the loop body runs exactly
once and the id is returned without ever retrying on a collision. -/
def generateUniqueAccountId (r : ℚ) : Nat :=
  (⌊(10000 : ℚ) + r * 90000⌋).toNat

/-- `createAccount` from `bank.js`: refuse at 90000 accounts, otherwise
insert a fresh zero-balance row with the generated id and reply with the new
reference. -/
def createAccount (bankIP : String) (st : BankState) (r : ℚ) :
    BankState × Action :=
  if 90000 ≤ st.accounts.length then
    (st, Action.write
      "ER Our bank currently does not allow the creation of new accounts.\n")
  else
    let accountId := generateUniqueAccountId r
    (⟨st.accounts ++ [(accountId, 0)]⟩,
     Action.write ("AC " ++ toString accountId ++ "/" ++ bankIP ++ "\n"))

/-- `forwardCommandToBank`'s effect on the original caller's socket: a
`"data"` event writes the received chunk back unmodified
(`socket.write(data)`); an `"error"` event (connect, write or read failure,
carrying the transport message `err.message`) writes the fixed failure line
instead. -/
def forwardCommandToBank : Except String String → String
  | Except.ok data => data
  | Except.error _ => "ER Failed to contact another bank.\n"

/-- `deposit` from `bank.js`. -/
def deposit (bankIP : String) (st : BankState) (args : List String) :
    BankState × Action :=
  match args with
  | [accountInfo, amountStr] =>
    match splitRef accountInfo with
    | (account, bankCode) =>
      match parseIntJS amountStr with
      | none => (st, Action.write "ER The amount must be a positive number.\n")
      | some amount =>
        if amount ≤ 0 then
          (st, Action.write "ER The amount must be a positive number.\n")
        else if bankCode ≠ some bankIP then
          (st, Action.forward bankCode
            ("AD " ++ accountInfo ++ " " ++ toString amount))
        else
          match dbLookup st.accounts account with
          | none => (st, Action.write "ER Non-existent account.\n")
          | some balance =>
            (⟨updateBalance st.accounts account (balance + amount)⟩,
             Action.write "AD\n")
  | _ =>
    (st, Action.write
      "ER The bank account number and amount are not in the correct format.\n")

/-- `withdraw` from `bank.js`. -/
def withdraw (bankIP : String) (st : BankState) (args : List String) :
    BankState × Action :=
  match args with
  | [accountInfo, amountStr] =>
    match splitRef accountInfo with
    | (account, bankCode) =>
      match parseIntJS amountStr with
      | none => (st, Action.write "ER The amount must be a positive number.\n")
      | some amount =>
        if amount ≤ 0 then
          (st, Action.write "ER The amount must be a positive number.\n")
        else if bankCode ≠ some bankIP then
          (st, Action.forward bankCode
            ("AW " ++ accountInfo ++ " " ++ toString amount))
        else
          match dbLookup st.accounts account with
          | none => (st, Action.write "ER Non-existent account.\n")
          | some balance =>
            if balance < amount then
              (st, Action.write "ER Insufficient funds.\n")
            else
              (⟨updateBalance st.accounts account (balance - amount)⟩,
               Action.write "AW\n")
  | _ =>
    (st, Action.write
      "ER The bank account number and amount are not in the correct format.\n")

/-- `checkBalance` from `bank.js`.  Note the success reply decorates the
balance with 💸 on both sides, exactly as the source writes it. -/
def checkBalance (bankIP : String) (st : BankState) (args : List String) :
    BankState × Action :=
  match args with
  | [accountInfo] =>
    match splitRef accountInfo with
    | (account, bankCode) =>
      if bankCode ≠ some bankIP then
        (st, Action.forward bankCode ("AB " ++ accountInfo))
      else
        match dbLookup st.accounts account with
        | none => (st, Action.write "ER Non-existent account.\n")
        | some balance =>
          (st, Action.write ("AB 💸" ++ toString balance ++ "💸\n"))
  | _ => (st, Action.write "ER The account number format is incorrect.\n")

/-- JavaScript truthiness of the value of the call
`isValidAccount(account, bankCode)` in `removeAccount`: `isValidAccount`
returns a `Promise` object (it is never awaited), and every object is truthy,
so the guard `if (!isValidAccount(account, bankCode))` is always `false`. -/
def isValidAccountCallTruthy : Bool := true

/-- `removeAccount` from `bank.js`.  The `bankIP` parameter corresponds to
the `BANK_IP` constant the source's `isValidAccount` closes over; because
that call's promise is never awaited (see `isValidAccountCallTruthy`), the
bank-code comparison never influences the result and execution always falls
through to the database queries. -/
def removeAccount (_bankIP : String) (st : BankState) (args : List String) :
    BankState × Action :=
  match args with
  | [accountInfo] =>
    match splitRef accountInfo with
    | (account, _bankCode) =>
      if !isValidAccountCallTruthy then
        (st, Action.write "ER The account number format is incorrect.\n")
      else
        match dbLookup st.accounts account with
        | none => (st, Action.write "ER Non-existent account.\n")
        | some balance =>
          if 0 < balance then
            (st, Action.write "ER Cannot delete an account with funds.\n")
          else
            (⟨deleteAccount st.accounts account⟩, Action.write "AR\n")
  | _ => (st, Action.write "ER The account number format is incorrect.\n")

/-- The `switch (cmd.toUpperCase())` dispatcher inside `handleCommand`. -/
def dispatch (bankIP : String) (st : BankState) (r : ℚ) (cmd : String)
    (args : List String) : BankState × Action :=
  if jsToUpper cmd = "BC" then (st, Action.write ("BC " ++ bankIP ++ "\n"))
  else if jsToUpper cmd = "AC" then createAccount bankIP st r
  else if jsToUpper cmd = "AD" then deposit bankIP st args
  else if jsToUpper cmd = "AW" then withdraw bankIP st args
  else if jsToUpper cmd = "AB" then checkBalance bankIP st args
  else if jsToUpper cmd = "AR" then removeAccount bankIP st args
  else if jsToUpper cmd = "BA" then
    (st, Action.write ("BA " ++ toString (totalAmount st) ++ "\n"))
  else if jsToUpper cmd = "BN" then
    (st, Action.write ("BN " ++ toString st.accounts.length ++ "\n"))
  else (st, Action.write "ER Unknown command\n")

/-- `handleCommand` from `bank.js`: return silently on the empty (falsy)
string, otherwise tokenise `command.trim().split(/\s+/)` and dispatch on the
upper-cased command token.  `r` threads the `Math.random()` value consumed
by the `AC` branch. -/
def handleCommand (bankIP : String) (st : BankState) (command : String)
    (r : ℚ) : BankState × Action :=
  if command = "" then (st, Action.silent)
  else
    match tokens command with
    | [] => (st, Action.write "ER Unknown command\n")
    | cmd :: args => dispatch bankIP st r cmd args

/-- One framed line of the connection handler:
`handleCommand(line.trim(), socket)`. -/
def processLine (bankIP : String) (st : BankState) (line : String) (r : ℚ) :
    BankState × Action :=
  handleCommand bankIP st (jsTrim line) r

/-- The socket writes an `Action` produces (a silent action writes
nothing). -/
def emitted : Action → List Action
  | Action.silent => []
  | a => [a]

/-- The connection handler's loop over a batch of complete lines, in arrival
order, accumulating the writes performed. -/
def processLines (bankIP : String) :
    BankState → List (String × ℚ) → BankState × List Action
  | st, [] => (st, [])
  | st, (l, r) :: rest =>
    let p := processLine bankIP st l r
    let q := processLines bankIP p.1 rest
    (q.1, emitted p.2 ++ q.2)

/-! ## Helper lemmas -/

theorem mkStr_toList (s : String) : mkStr s.toList = s := rfl

theorem splitOnP_all_false (p : Char → Bool) :
    ∀ l : List Char, (∀ c ∈ l, p c = false) → splitOnP p l = [l]
  | [], _ => rfl
  | c :: rest, h => by
    have hc : p c = false := h c (List.mem_cons_self c rest)
    have ih := splitOnP_all_false p rest
      (fun d hd => h d (List.mem_cons_of_mem c hd))
    simp [splitOnP, hc, ih]

theorem splitRef_no_slash (s : String) (h : ∀ c ∈ s.toList, c ≠ '/') :
    splitRef s = (s, none) := by
  have hall : ∀ c ∈ s.toList, (fun c => c == '/') c = false := by
    intro c hc
    simpa using h c hc
  rw [splitRef, splitOnP_all_false _ _ hall]
  rfl

theorem findBalance_update (l : List (Nat × Int)) (n : Nat) (b v : Int)
    (h : findBalance l n = some b) :
    findBalance (l.map fun p => if p.1 = n then (n, v) else p) n = some v := by
  induction l with
  | nil => simp [findBalance] at h
  | cons hd tl ih =>
    obtain ⟨i, c⟩ := hd
    by_cases hi : i = n
    · subst hi
      rw [List.map_cons]
      rw [if_pos (rfl : (i, c).1 = i)]
      rw [findBalance, if_pos rfl]
    · rw [findBalance, if_neg hi] at h
      simp only [List.map_cons]
      rw [if_neg hi, findBalance, if_neg hi]
      exact ih h

theorem dbLookup_updateBalance (l : List (Nat × Int)) (account : String)
    (b v : Int) (h : dbLookup l account = some b) :
    dbLookup (updateBalance l account v) account = some v := by
  cases hs : strToNat account with
  | none =>
    unfold dbLookup at h
    rw [hs] at h
    exact Option.noConfusion h
  | some n =>
    unfold dbLookup at h
    rw [hs] at h
    unfold dbLookup updateBalance
    rw [hs]
    exact findBalance_update l n b v h

theorem handleCommand_eq_dispatch (bankIP : String) (st : BankState) (r : ℚ)
    (line cmd : String) (args : List String) (h : tokens line = cmd :: args) :
    handleCommand bankIP st line r = dispatch bankIP st r cmd args := by
  have hne : line ≠ "" := by
    intro he
    rw [he] at h
    have h0 : tokens "" = ([] : List String) := rfl
    rw [h0] at h
    exact List.cons_ne_nil cmd args h.symm
  unfold handleCommand
  rw [if_neg hne, h]

theorem dispatch_congr (bankIP : String) (st : BankState) (r : ℚ)
    (cmd cmd' : String) (args : List String)
    (h : jsToUpper cmd = jsToUpper cmd') :
    dispatch bankIP st r cmd args = dispatch bankIP st r cmd' args := by
  unfold dispatch
  rw [h]

theorem deposit_remote (bankIP : String) (st : BankState)
    (accountInfo amountStr account : String) (bankCode : Option String)
    (a : Int) (hsplit : splitRef accountInfo = (account, bankCode))
    (hremote : bankCode ≠ some bankIP)
    (hp : parseIntJS amountStr = some a) (hpos : 0 < a) :
    deposit bankIP st [accountInfo, amountStr]
      = (st, Action.forward bankCode
          ("AD " ++ accountInfo ++ " " ++ toString a)) := by
  simp only [deposit, hsplit, hp]
  rw [if_neg (not_le.mpr hpos), if_pos hremote]

theorem withdraw_remote (bankIP : String) (st : BankState)
    (accountInfo amountStr account : String) (bankCode : Option String)
    (a : Int) (hsplit : splitRef accountInfo = (account, bankCode))
    (hremote : bankCode ≠ some bankIP)
    (hp : parseIntJS amountStr = some a) (hpos : 0 < a) :
    withdraw bankIP st [accountInfo, amountStr]
      = (st, Action.forward bankCode
          ("AW " ++ accountInfo ++ " " ++ toString a)) := by
  simp only [withdraw, hsplit, hp]
  rw [if_neg (not_le.mpr hpos), if_pos hremote]

theorem checkBalance_remote (bankIP : String) (st : BankState)
    (accountInfo account : String) (bankCode : Option String)
    (hsplit : splitRef accountInfo = (account, bankCode))
    (hremote : bankCode ≠ some bankIP) :
    checkBalance bankIP st [accountInfo]
      = (st, Action.forward bankCode ("AB " ++ accountInfo)) := by
  simp only [checkBalance, hsplit]
  rw [if_pos hremote]

theorem deposit_remote_state (bankIP : String) (st : BankState)
    (accountInfo amountStr account : String) (bankCode : Option String)
    (hsplit : splitRef accountInfo = (account, bankCode))
    (hremote : bankCode ≠ some bankIP) :
    (deposit bankIP st [accountInfo, amountStr]).1 = st := by
  simp only [deposit, hsplit]
  cases hp : parseIntJS amountStr with
  | none => rfl
  | some a =>
    by_cases ha : a ≤ 0
    · simp [ha]
    · simp [ha, hremote]

theorem withdraw_remote_state (bankIP : String) (st : BankState)
    (accountInfo amountStr account : String) (bankCode : Option String)
    (hsplit : splitRef accountInfo = (account, bankCode))
    (hremote : bankCode ≠ some bankIP) :
    (withdraw bankIP st [accountInfo, amountStr]).1 = st := by
  simp only [withdraw, hsplit]
  cases hp : parseIntJS amountStr with
  | none => rfl
  | some a =>
    by_cases ha : a ≤ 0
    · simp [ha]
    · simp [ha, hremote]

theorem processLine_blank (bankIP : String) (st : BankState) (l : String)
    (r : ℚ) (h : jsTrim l = "") :
    processLine bankIP st l r = (st, Action.silent) := by
  unfold processLine
  rw [h]
  rfl

/-! ## Claim theorems -/

/-- C1, counterexample: the amount argument `"3.5"` is a non-integer numeral,
so per the claim the deposit should fail with the invalid-amount error and
leave the balance unchanged; instead `parseInt("3.5", 10)` yields `3`, the
deposit succeeds with the bare `AD` reply, and the balance of account 10001
changes from 0 to 3. -/
theorem C1_counterexample :
    deposit "10.1.2.3" ⟨[(10001, 0)]⟩ ["10001/10.1.2.3", "3.5"]
        = (⟨[(10001, 3)]⟩, Action.write "AD\n") ∧
      Action.write "AD\n"
        ≠ Action.write "ER The amount must be a positive number.\n" ∧
      (⟨[(10001, 3)]⟩ : BankState) ≠ (⟨[(10001, 0)]⟩ : BankState) :=
  ⟨by decide, by decide, by decide⟩

/-- C1, amended: for a deposit on a local account, if `parseInt` of the
amount argument yields a positive value `a` and the account exists with
balance `b`, the balance afterwards is `b + a` and the reply is the bare
success line `AD`; the request fails with the invalid-amount error and no
balance changes exactly when `parseInt` yields `NaN` or a non-positive
value.  (A non-integer numeral with a positive leading integer part, such as
`3.5`, is accepted and deposits that integer part.) -/
theorem C1_deposit_parseInt (bankIP : String) (st : BankState)
    (accountInfo amountStr account : String) (bankCode : Option String)
    (hsplit : splitRef accountInfo = (account, bankCode))
    (hloc : bankCode = some bankIP) :
    (∀ a b : Int, parseIntJS amountStr = some a → 0 < a →
      dbLookup st.accounts account = some b →
      deposit bankIP st [accountInfo, amountStr]
          = (⟨updateBalance st.accounts account (b + a)⟩, Action.write "AD\n")
        ∧ dbLookup (updateBalance st.accounts account (b + a)) account
          = some (b + a)) ∧
    ((parseIntJS amountStr = none
        ∨ ∃ a : Int, parseIntJS amountStr = some a ∧ a ≤ 0) →
      deposit bankIP st [accountInfo, amountStr]
        = (st, Action.write "ER The amount must be a positive number.\n")) := by
  subst hloc
  constructor
  · intro a b hp hpos hb
    refine ⟨?_, dbLookup_updateBalance st.accounts account b (b + a) hb⟩
    simp only [deposit, hsplit, hp, hb]
    rw [if_neg (not_le.mpr hpos), if_neg (by simp)]
  · intro hbad
    rcases hbad with hnone | ⟨a, hp, ha⟩
    · simp only [deposit, hsplit, hnone]
    · simp only [deposit, hsplit, hp]
      rw [if_pos ha]

/-- C1 witness: a concrete local deposit of `7` onto balance `5` succeeds
with reply `AD` and new balance `12`, while amount `"abc"` fails with the
invalid-amount error and leaves the state unchanged. -/
theorem C1_witness :
    (deposit "10.1.2.3" ⟨[(10001, 5)]⟩ ["10001/10.1.2.3", "7"]
        = (⟨updateBalance [(10001, 5)] "10001" (5 + 7)⟩, Action.write "AD\n")
      ∧ dbLookup (updateBalance [(10001, 5)] "10001" (5 + 7)) "10001"
        = some (5 + 7)) ∧
    deposit "10.1.2.3" ⟨[(10001, 5)]⟩ ["10001/10.1.2.3", "abc"]
      = (⟨[(10001, 5)]⟩,
         Action.write "ER The amount must be a positive number.\n") :=
  ⟨(C1_deposit_parseInt "10.1.2.3" ⟨[(10001, 5)]⟩ "10001/10.1.2.3" "7"
      "10001" (some "10.1.2.3") (by decide) rfl).1 7 5 (by decide) (by decide)
      (by decide),
   (C1_deposit_parseInt "10.1.2.3" ⟨[(10001, 5)]⟩ "10001/10.1.2.3" "abc"
      "10001" (some "10.1.2.3") (by decide) rfl).2 (Or.inl (by decide))⟩

/-- C2: for a withdrawal on an existing local account with balance `b` and a
validly parsed positive amount `a`, if `b < a` the reply is the
insufficient-funds error and the state is unchanged (no partial debit);
otherwise the balance decreases to exactly `b - a` and the reply is the bare
success line `AW`. -/
theorem C2_withdraw (bankIP : String) (st : BankState)
    (accountInfo amountStr account : String) (bankCode : Option String)
    (a b : Int) (hsplit : splitRef accountInfo = (account, bankCode))
    (hloc : bankCode = some bankIP)
    (hp : parseIntJS amountStr = some a) (hpos : 0 < a)
    (hb : dbLookup st.accounts account = some b) :
    (b < a →
      withdraw bankIP st [accountInfo, amountStr]
        = (st, Action.write "ER Insufficient funds.\n")) ∧
    (a ≤ b →
      withdraw bankIP st [accountInfo, amountStr]
          = (⟨updateBalance st.accounts account (b - a)⟩, Action.write "AW\n")
        ∧ dbLookup (updateBalance st.accounts account (b - a)) account
          = some (b - a)) := by
  subst hloc
  constructor
  · intro hlt
    simp only [withdraw, hsplit, hp, hb]
    rw [if_neg (not_le.mpr hpos), if_neg (by simp), if_pos hlt]
  · intro hle
    refine ⟨?_, dbLookup_updateBalance st.accounts account b (b - a) hb⟩
    simp only [withdraw, hsplit, hp, hb]
    rw [if_neg (not_le.mpr hpos), if_neg (by simp), if_neg (not_lt.mpr hle)]

/-- C2 witness: withdrawing `3` from a local account with balance `10`
succeeds with reply `AW` and new balance `7`, and withdrawing `12` from the
same account fails with the insufficient-funds error and an unchanged
state. -/
theorem C2_witness :
    withdraw "10.1.2.3" ⟨[(10001, 10)]⟩ ["10001/10.1.2.3", "12"]
        = (⟨[(10001, 10)]⟩, Action.write "ER Insufficient funds.\n") ∧
      (withdraw "10.1.2.3" ⟨[(10001, 10)]⟩ ["10001/10.1.2.3", "3"]
          = (⟨updateBalance [(10001, 10)] "10001" (10 - 3)⟩,
             Action.write "AW\n")
        ∧ dbLookup (updateBalance [(10001, 10)] "10001" (10 - 3)) "10001"
          = some (10 - 3)) :=
  ⟨(C2_withdraw "10.1.2.3" ⟨[(10001, 10)]⟩ "10001/10.1.2.3" "12" "10001"
      (some "10.1.2.3") 12 10 (by decide) rfl (by decide) (by decide)
      (by decide)).1 (by decide),
   (C2_withdraw "10.1.2.3" ⟨[(10001, 10)]⟩ "10001/10.1.2.3" "3" "10001"
      (some "10.1.2.3") 3 10 (by decide) rfl (by decide) (by decide)
      (by decide)).2 (by decide)⟩

/-- C3: for an `AD`, `AW` or `AB` request whose reference carries a bank
identifier different from this node's own, no local account is mutated (the
state component is unchanged in every branch); when the request is
well-formed the action is a forward of the re-encoded command to the peer;
and the single chunk received from the peer is written back to the original
caller byte-for-byte unmodified. -/
theorem C3_forward_passthrough (bankIP : String) (st : BankState)
    (accountInfo amountStr account : String) (bankCode : Option String)
    (hsplit : splitRef accountInfo = (account, bankCode))
    (hremote : bankCode ≠ some bankIP) :
    ((deposit bankIP st [accountInfo, amountStr]).1 = st ∧
      (withdraw bankIP st [accountInfo, amountStr]).1 = st ∧
      checkBalance bankIP st [accountInfo]
        = (st, Action.forward bankCode ("AB " ++ accountInfo))) ∧
    (∀ a : Int, parseIntJS amountStr = some a → 0 < a →
      deposit bankIP st [accountInfo, amountStr]
          = (st, Action.forward bankCode
              ("AD " ++ accountInfo ++ " " ++ toString a)) ∧
        withdraw bankIP st [accountInfo, amountStr]
          = (st, Action.forward bankCode
              ("AW " ++ accountInfo ++ " " ++ toString a))) ∧
    (∀ data : String, forwardCommandToBank (Except.ok data) = data) := by
  refine ⟨⟨deposit_remote_state bankIP st accountInfo amountStr account
      bankCode hsplit hremote,
    withdraw_remote_state bankIP st accountInfo amountStr account
      bankCode hsplit hremote,
    checkBalance_remote bankIP st accountInfo account bankCode
      hsplit hremote⟩, ?_, fun _ => rfl⟩
  intro a hp hpos
  exact ⟨deposit_remote bankIP st accountInfo amountStr account bankCode a
      hsplit hremote hp hpos,
    withdraw_remote bankIP st accountInfo amountStr account bankCode a
      hsplit hremote hp hpos⟩

/-- C3 witness: a deposit, withdrawal and balance check addressed to bank
`9.9.9.9` on a node whose identifier is `10.1.2.3` leave the local state
untouched and forward the re-encoded commands. -/
theorem C3_witness :
    ((deposit "10.1.2.3" ⟨[(10001, 5)]⟩ ["20002/9.9.9.9", "50"]).1
        = (⟨[(10001, 5)]⟩ : BankState) ∧
      (withdraw "10.1.2.3" ⟨[(10001, 5)]⟩ ["20002/9.9.9.9", "50"]).1
        = (⟨[(10001, 5)]⟩ : BankState) ∧
      checkBalance "10.1.2.3" ⟨[(10001, 5)]⟩ ["20002/9.9.9.9"]
        = (⟨[(10001, 5)]⟩,
           Action.forward (some "9.9.9.9") ("AB " ++ "20002/9.9.9.9"))) ∧
    (∀ a : Int, parseIntJS "50" = some a → 0 < a →
      deposit "10.1.2.3" ⟨[(10001, 5)]⟩ ["20002/9.9.9.9", "50"]
          = (⟨[(10001, 5)]⟩, Action.forward (some "9.9.9.9")
              ("AD " ++ "20002/9.9.9.9" ++ " " ++ toString a)) ∧
        withdraw "10.1.2.3" ⟨[(10001, 5)]⟩ ["20002/9.9.9.9", "50"]
          = (⟨[(10001, 5)]⟩, Action.forward (some "9.9.9.9")
              ("AW " ++ "20002/9.9.9.9" ++ " " ++ toString a))) ∧
    (∀ data : String, forwardCommandToBank (Except.ok data) = data) :=
  C3_forward_passthrough "10.1.2.3" ⟨[(10001, 5)]⟩ "20002/9.9.9.9" "50"
    "20002" (some "9.9.9.9") (by decide) (by decide)

/-- C4: the code violates this claim.  An `AR` whose reference names a
foreign bank (`9.9.9.9` on a node whose identifier is `10.1.2.3`) is not
rejected: because `isValidAccount` returns a promise object and the guard
`if (!isValidAccount(...))` tests the truthiness of that object, the guard
never fires, and the request is executed against the local store — here it
deletes local account 10001 and replies with the success line `AR`. -/
theorem C4_remote_remove_executes_locally :
    removeAccount "10.1.2.3" ⟨[(10001, 0)]⟩ ["10001/9.9.9.9"]
        = ((⟨[]⟩ : BankState), Action.write "AR\n") ∧
      (splitRef "10001/9.9.9.9").2 = some "9.9.9.9" ∧
      some "9.9.9.9" ≠ some "10.1.2.3" :=
  ⟨by decide, by decide, by decide⟩

/-- C5: the code violates the retry part of this claim.  With
`Math.random()` returning `2345/90000`, `generateUniqueAccountId` produces
id `12345` and returns it even though an account with id `12345` already
exists (`isUniqueAccountId` resolves to `false`): the do-while guard
`!isUniqueAccountId(accountId)` tests the truthiness of a promise object, so
the loop never retries on a collision. -/
theorem C5_id_generation_no_retry :
    generateUniqueAccountId ((2345 : ℚ) / 90000) = 12345 ∧
      isUniqueAccountId ⟨[(12345, 7)]⟩ 12345 = false := by
  constructor
  · unfold generateUniqueAccountId
    norm_num
    rfl
  · rfl

/-- C6: when the outbound connect, write or read to the peer fails, the
original caller receives the one fixed error line, whatever the transport
error text was — the reply never depends on (and never contains) the raw
error message. -/
theorem C6_transport_failure_fixed_reply :
    (∀ errMsg : String,
      forwardCommandToBank (Except.error errMsg)
        = "ER Failed to contact another bank.\n") ∧
    (∀ e e' : String,
      forwardCommandToBank (Except.error e)
        = forwardCommandToBank (Except.error e')) :=
  ⟨fun _ => rfl, fun _ _ => rfl⟩

/-- C7: the command token is dispatched solely through its upper-cased form,
so two lines whose command tokens agree up to case behave identically; and a
token whose upper-cased form is outside the vocabulary
`{BC, AC, AD, AW, AB, AR, BA, BN}` yields exactly the response line
`ER Unknown command` with the state unchanged. -/
theorem C7_case_insensitive_dispatch (bankIP : String) (st : BankState)
    (r : ℚ) (line line' cmd cmd' : String) (args : List String)
    (htok : tokens line = cmd :: args) (htok' : tokens line' = cmd' :: args)
    (hci : jsToUpper cmd' = jsToUpper cmd) :
    handleCommand bankIP st line' r = handleCommand bankIP st line r ∧
    (jsToUpper cmd ∉ ["BC", "AC", "AD", "AW", "AB", "AR", "BA", "BN"] →
      handleCommand bankIP st line r
        = (st, Action.write "ER Unknown command\n")) := by
  have h1 := handleCommand_eq_dispatch bankIP st r line cmd args htok
  have h2 := handleCommand_eq_dispatch bankIP st r line' cmd' args htok'
  constructor
  · rw [h1, h2]
    exact dispatch_congr bankIP st r cmd' cmd args hci
  · intro hmem
    rw [h1]
    simp only [List.mem_cons, List.not_mem_nil, or_false, not_or] at hmem
    obtain ⟨n1, n2, n3, n4, n5, n6, n7, n8⟩ := hmem
    unfold dispatch
    rw [if_neg n1, if_neg n2, if_neg n3, if_neg n4, if_neg n5, if_neg n6,
      if_neg n7, if_neg n8]

/-- C7 witness: the lines `zZ` and `Zz` (same token up to case) get the same
treatment, and their token upper-cases to `ZZ`, outside the vocabulary, so
the reply is exactly `ER Unknown command`. -/
theorem C7_witness :
    handleCommand "10.1.2.3" ⟨[]⟩ "zZ" 0 = handleCommand "10.1.2.3" ⟨[]⟩ "Zz" 0
      ∧ handleCommand "10.1.2.3" ⟨[]⟩ "Zz" 0
        = ((⟨[]⟩ : BankState), Action.write "ER Unknown command\n") :=
  have h := C7_case_insensitive_dispatch "10.1.2.3" ⟨[]⟩ 0 "Zz" "zZ" "Zz" "zZ"
    [] (by decide) (by decide) (by decide)
  ⟨h.1, h.2 (by decide)⟩

/-- C8: the code violates this claim.  For `AB 10001/10.1.2.3` on a local
account with balance 3000 the reply written is `AB 💸3000💸`, with the
balance wrapped in 💸 decorations, not the bare `AB 3000` payload the claim
(and the repository's own README command table) requires. -/
theorem C8_balance_reply_decorated :
    checkBalance "10.1.2.3" ⟨[(10001, 3000)]⟩ ["10001/10.1.2.3"]
        = (⟨[(10001, 3000)]⟩, Action.write "AB 💸3000💸\n") ∧
      "AB 💸3000💸\n" ≠ "AB 3000\n" :=
  ⟨by decide, by decide⟩

/-- C9: a line that trims to the empty string produces no write at all (the
handler returns before dispatching), and a batch of lines containing such a
blank line produces exactly the writes and final state of the same batch
with the blank line removed — later lines are processed normally. -/
theorem C9_blank_line_silent (bankIP : String) (st : BankState) (l : String)
    (r : ℚ) (h : jsTrim l = "") (pre post : List (String × ℚ)) :
    processLine bankIP st l r = (st, Action.silent) ∧
    processLines bankIP st (pre ++ (l, r) :: post)
      = processLines bankIP st (pre ++ post) := by
  refine ⟨processLine_blank bankIP st l r h, ?_⟩
  induction pre generalizing st with
  | nil =>
    simp only [List.nil_append, processLines]
    rw [processLine_blank bankIP st l r h]
    rfl
  | cons hd tl ih =>
    obtain ⟨l', r'⟩ := hd
    simp only [List.cons_append, processLines, List.append_eq]
    rw [ih (processLine bankIP st l' r').1]

/-- C9 witness: in the batch `BC`, blank, `BN` the blank line writes nothing
and the batch behaves exactly like `BC`, `BN`. -/
theorem C9_witness :
    processLine "10.1.2.3" ⟨[]⟩ "   " 0 = ((⟨[]⟩ : BankState), Action.silent)
      ∧ processLines "10.1.2.3" ⟨[]⟩ [("BC", 0), ("   ", 0), ("BN", 0)]
        = processLines "10.1.2.3" ⟨[]⟩ [("BC", 0), ("BN", 0)] :=
  C9_blank_line_silent "10.1.2.3" ⟨[]⟩ "   " 0 (by decide) [("BC", 0)]
    [("BN", 0)]

/-- C10: an `AD`, `AW` or `AB` reference with no `/` separator splits into
the whole string and an absent (`undefined`) bank code; the absent code
differs from this node's identifier, so a well-formed request is routed to
the forwarding path (with the absent code as the peer address) rather than
rejected as a format error. -/
theorem C10_no_separator_forwards (bankIP : String) (st : BankState)
    (accountInfo amountStr : String) (a : Int)
    (hns : ∀ c ∈ accountInfo.toList, c ≠ '/')
    (hp : parseIntJS amountStr = some a) (hpos : 0 < a) :
    (splitRef accountInfo).2 = none ∧
    deposit bankIP st [accountInfo, amountStr]
      = (st, Action.forward none
          ("AD " ++ accountInfo ++ " " ++ toString a)) ∧
    withdraw bankIP st [accountInfo, amountStr]
      = (st, Action.forward none
          ("AW " ++ accountInfo ++ " " ++ toString a)) ∧
    checkBalance bankIP st [accountInfo]
      = (st, Action.forward none ("AB " ++ accountInfo)) := by
  have hsplit : splitRef accountInfo = (accountInfo, none) :=
    splitRef_no_slash accountInfo hns
  have hne : (none : Option String) ≠ some bankIP := by simp
  exact ⟨by rw [hsplit],
    deposit_remote bankIP st accountInfo amountStr accountInfo none a
      hsplit hne hp hpos,
    withdraw_remote bankIP st accountInfo amountStr accountInfo none a
      hsplit hne hp hpos,
    checkBalance_remote bankIP st accountInfo accountInfo none hsplit hne⟩

/-- C10 witness: the reference `12345` (no separator) with amount `50` is
forwarded for all three commands instead of being rejected. -/
theorem C10_witness :
    (splitRef "12345").2 = none ∧
    deposit "10.1.2.3" ⟨[]⟩ ["12345", "50"]
      = ((⟨[]⟩ : BankState), Action.forward none
          ("AD " ++ "12345" ++ " " ++ toString (50 : Int))) ∧
    withdraw "10.1.2.3" ⟨[]⟩ ["12345", "50"]
      = ((⟨[]⟩ : BankState), Action.forward none
          ("AW " ++ "12345" ++ " " ++ toString (50 : Int))) ∧
    checkBalance "10.1.2.3" ⟨[]⟩ ["12345"]
      = ((⟨[]⟩ : BankState), Action.forward none ("AB " ++ "12345")) :=
  C10_no_separator_forwards "10.1.2.3" ⟨[]⟩ "12345" "50" 50 (by decide)
    (by decide) (by decide)

end Bank
